import Mathlib

/-!
A verification development for a security alert pipeline consisting of an
alert engine (rule matching, behavioral analysis, deduplication, health-gated
polling) and a multi-channel notification dispatcher.  The Python sources in
scripts/lib/alerts are embedded shallowly: times are integers (minutes),
strings stay strings, fallible calls return Except, and external effects
(HTTP, SMTP, wall clock, hashing) are threaded as explicit parameters.
-/

namespace AlertPipeline

/-- A timestamp string as it appears in a log record or alert: absent (the
empty string), present but unparseable, or a valid ISO-8601 instant.  Instants
are modelled as integers (minutes); the constructor `valid t` stands for the
ISO rendering of instant `t`. -/
inductive TsVal where
  | missing : TsVal
  | malformed : String → TsVal
  | valid : Int → TsVal
deriving DecidableEq, Repr

/-- Embeds `datetime.fromisoformat(s)`: returns the instant for a valid ISO
string and raises ValueError (modelled as `Except.error`) on an empty or
malformed string. -/
def fromisoE : TsVal → Except Unit Int
  | .valid t => .ok t
  | _ => .error ()

/-- The raw string stored in the field: empty when absent, the bad string when
malformed, and a synthetic injective rendering standing for the ISO format of
a valid instant. -/
def rawTs : TsVal → String
  | .missing => ""
  | .malformed s => s
  | .valid t => "iso(" ++ toString t ++ ")"

/-- Context payload of an alert.  Pattern-rule alerts carry extracted field
values; the two behavioral detectors carry their fixed context shapes
(alert-engine.py lines 206-210 and 229-232).  `session_duration` is the
timedelta value whose `str()` the code stores; `operations_per_minute` is the
exact rational standing for the Python float `len(recent)/5`. -/
inductive AlertContext where
  | patternCtx : List (String × String) → AlertContext
  | highFreq : Nat → String → Rat → AlertContext
  | repeatedScope : Nat → Int → AlertContext
deriving DecidableEq, Repr

/-- A log record as the pipeline reads it: the `timestamp` field, the
`session_id` field, the truthiness of `action_details.outside_project_scope`,
and the remaining fields flattened into a path-keyed association list (the
engine's dotted-path traversal is summarised by lookup on the flattened
path). -/
structure Rec where
  timestamp : TsVal
  session_id : Option String
  outside_scope : Bool
  fields : List (String × String)
deriving DecidableEq, Repr

/-- The Alert dataclass (alert-engine.py lines 33-45). -/
structure Alert where
  alert_id : String
  rule_name : String
  severity : String
  description : String
  category : String
  timestamp : TsVal
  session_id : String
  context : AlertContext
  raw_log : Rec
  escalation_count : Nat := 0
deriving DecidableEq, Repr

/-- Python `str()` of a context dict, as used when a dedup key field resolves
into the context; a concrete rendering stands in for the dict repr. -/
def ctxStr : AlertContext → String
  | .patternCtx kvs => String.intercalate "," (kvs.map fun p => p.1 ++ ":" ++ p.2)
  | .highFreq c tw opm => "hf:" ++ toString c ++ "," ++ tw ++ "," ++ toString opm
  | .repeatedScope v d => "rs:" ++ toString v ++ "," ++ toString d

/-- Python `str()` of the raw log dict; a concrete rendering stands in for the
dict repr. -/
def recStr (r : Rec) : String :=
  rawTs r.timestamp ++ ";" ++ (r.session_id.getD "") ++ ";" ++
    String.intercalate "," (r.fields.map fun p => p.1 ++ ":" ++ p.2)

/-- `getattr(alert, field)` as a string, for the attribute names the Alert
dataclass has (`hasattr` is true exactly for these). -/
def alertAttr (a : Alert) : String → Option String
  | "alert_id" => some a.alert_id
  | "rule_name" => some a.rule_name
  | "severity" => some a.severity
  | "description" => some a.description
  | "category" => some a.category
  | "timestamp" => some (rawTs a.timestamp)
  | "session_id" => some a.session_id
  | "context" => some (ctxStr a.context)
  | "raw_log" => some (recStr a.raw_log)
  | "escalation_count" => some (toString a.escalation_count)
  | _ => none

/-- `field in alert.context` followed by `str(alert.context[field])`. -/
def contextLookup : AlertContext → String → Option String
  | .patternCtx kvs, f => (kvs.lookup f).map id
  | .highFreq c tw opm, f =>
      if f = "operation_count" then some (toString c)
      else if f = "time_window" then some tw
      else if f = "operations_per_minute" then some (toString opm)
      else none
  | .repeatedScope v d, f =>
      if f = "violation_count" then some (toString v)
      else if f = "session_duration" then some (toString d)
      else none

/-! ## Deduplicator (alert-engine.py lines 118-158) -/

/-- Configuration of AlertDeduplicator.__init__ (window in minutes). -/
structure DedupCfg where
  enabled : Bool := true
  window_minutes : Int := 5
  key_fields : List String := ["rule_name", "session_id"]
  max_occurrences : Nat := 3
deriving Repr

/-- Dedup key: the configured fields resolved against alert attributes first,
then the context mapping, skipped when absent from both, joined by a bar
(alert-engine.py lines 134-141). -/
def dedupKey (cfg : DedupCfg) (a : Alert) : String :=
  String.intercalate "|"
    (cfg.key_fields.filterMap fun f =>
      match alertAttr a f with
      | some v => some v
      | none => contextLookup a.context f)

/-- The per-key history map (`defaultdict(deque)`): missing keys read as the
empty history. -/
def histGet (h : List (String × List Int)) (k : String) : List Int :=
  (h.lookup k).getD []

/-- Store a key's history back into the map. -/
def histSet (h : List (String × List Int)) (k : String) (v : List Int) :
    List (String × List Int) :=
  if (h.lookup k).isSome then h.map (fun p => if p.1 = k then (k, v) else p)
  else h ++ [(k, v)]

/-- The core of `should_alert` on one key's deque (alert-engine.py lines
144-158): pop entries from the old end while older than `now - window`, then
either suppress (count at least `max_occurrences`, nothing recorded) or record
`now` and accept.  Returns (accepted, updated history), oldest entry first. -/
def shouldAlertKey (maxOcc : Nat) (window : Int) (now : Int) (h : List Int) :
    Bool × List Int :=
  let cleaned := h.dropWhile fun x => decide (x < now - window)
  if maxOcc ≤ cleaned.length then (false, cleaned)
  else (true, cleaned ++ [now])

/-- What the specification text describes for one call: drop all recorded
timestamps older than `now - window` (not merely an old-end prefix), then
suppress or record. -/
def shouldAlertKeySpec (maxOcc : Nat) (window : Int) (now : Int) (h : List Int) :
    Bool × List Int :=
  let cleaned := h.filter fun x => decide (now - window ≤ x)
  if maxOcc ≤ cleaned.length then (false, cleaned)
  else (true, cleaned ++ [now])

/-- `AlertDeduplicator.should_alert` (alert-engine.py lines 128-158): pass
everything through when disabled, otherwise parse the alert timestamp with
`datetime.fromisoformat` (raising on a malformed string), then run the
sliding-window check on the alert's dedup key. -/
def shouldAlert (cfg : DedupCfg) (hist : List (String × List Int)) (a : Alert) :
    Except Unit (Bool × List (String × List Int)) :=
  if cfg.enabled = false then .ok (true, hist)
  else
    match fromisoE a.timestamp with
    | .error e => .error e
    | .ok now =>
      let k := dedupKey cfg a
      let r := shouldAlertKey cfg.max_occurrences cfg.window_minutes now (histGet hist k)
      .ok (r.1, histSet hist k r.2)

/-- Per-call accept/suppress decisions of a run of `should_alert` calls on one
key, starting from history `h`. -/
def dedupDecisions (maxOcc : Nat) (window : Int) (h : List Int) :
    List Int → List Bool
  | [] => []
  | t :: ts =>
    let r := shouldAlertKey maxOcc window t h
    r.1 :: dedupDecisions maxOcc window r.2 ts

/-- Per-call decisions of the algorithm the specification text describes. -/
def dedupDecisionsSpec (maxOcc : Nat) (window : Int) (h : List Int) :
    List Int → List Bool
  | [] => []
  | t :: ts =>
    let r := shouldAlertKeySpec maxOcc window t h
    r.1 :: dedupDecisionsSpec maxOcc window r.2 ts

/-- The timestamps of the accepted alerts of a run on one key. -/
def acceptedTimes (maxOcc : Nat) (window : Int) (h : List Int) :
    List Int → List Int
  | [] => []
  | t :: ts =>
    let r := shouldAlertKey maxOcc window t h
    (if r.1 then [t] else []) ++ acceptedTimes maxOcc window r.2 ts

/-! ## Behavioral analyzer (alert-engine.py lines 161-242) -/

/-- Per-session state held by BehavioralAnalyzer (`session_stats` default). -/
structure SessionStats where
  operations : List Int := []
  scope_violations : Nat := 0
  start_time : Option Int := none
deriving DecidableEq, Repr

/-- Truncation to the first 12 characters of the md5 hex digest; the digest
function is threaded as a parameter `hash`. -/
def mdTrunc (hash : String → String) (content : String) : String :=
  String.mk ((hash content).data.take 12)

/-- The content string hashed by `BehavioralAnalyzer._generate_alert_id`
(alert-engine.py lines 239-242): the short rule type, the session id, and
`int(time.time())` — the current wall clock, not any record field. -/
def behavioralAlertIdContent (ruleType sessionId : String) (wallClock : Int) :
    String :=
  ruleType ++ "_" ++ sessionId ++ "_" ++ toString wallClock

/-- `BehavioralAnalyzer._generate_alert_id`. -/
def behavioralGenerateAlertId (hash : String → String)
    (ruleType sessionId : String) (wallClock : Int) : String :=
  mdTrunc hash (behavioralAlertIdContent ruleType sessionId wallClock)

/-- The effective record time used by `analyze_session` (alert-engine.py lines
177-184): the parsed timestamp, falling back to `datetime.now()` when the
field is absent or fails to parse. -/
def effTime (now : Int) : TsVal → Int
  | .valid t => t
  | _ => now

/-- `BehavioralAnalyzer.analyze_session` (alert-engine.py lines 171-237).
`wallClock` is `int(time.time())` used for alert ids, `now` is
`datetime.now()` used for the timestamp fallback.  Times are minutes, so the
one-hour trim window is 60 and the frequency window is 5. -/
def analyzeSession (hash : String → String) (wallClock now : Int)
    (st : SessionStats) (sessionId : String) (r : Rec) :
    List Alert × SessionStats :=
  let t := effTime now r.timestamp
  let start := st.start_time.getD t
  let ops0 := st.operations ++ [t]
  let ops := ops0.filter fun x => decide (t - 60 < x)
  let recent := ops.filter fun x => decide (t - 5 < x)
  let hfAlerts : List Alert :=
    if 20 < recent.length then
      [{ alert_id := behavioralGenerateAlertId hash "high_frequency" sessionId wallClock,
         rule_name := "high_frequency_operations",
         severity := "MEDIUM",
         description := "Unusually high frequency of operations detected",
         category := "behavioral_anomaly",
         timestamp := .valid t,
         session_id := sessionId,
         context := .highFreq recent.length "5 minutes" ((recent.length : Rat) / 5),
         raw_log := r }]
    else []
  let viol := if r.outside_scope then st.scope_violations + 1 else st.scope_violations
  let scopeAlerts : List Alert :=
    if r.outside_scope ∧ 3 ≤ viol then
      [{ alert_id := behavioralGenerateAlertId hash "repeated_scope" sessionId wallClock,
         rule_name := "repeated_scope_violations",
         severity := "HIGH",
         description := "Multiple scope violations in session",
         category := "behavioral_anomaly",
         timestamp := .valid t,
         session_id := sessionId,
         context := .repeatedScope viol (t - start),
         raw_log := r }]
    else []
  (hfAlerts ++ scopeAlerts,
   { operations := ops, scope_violations := viol, start_time := some start })

/-- The per-call outputs of a run of `analyze_session` over a record sequence
for one session. -/
def analyzeTrace (hash : String → String) (wallClock now : Int)
    (st : SessionStats) (sessionId : String) :
    List Rec → List (List Alert) × SessionStats
  | [] => ([], st)
  | r :: rs =>
    let p := analyzeSession hash wallClock now st sessionId r
    let q := analyzeTrace hash wallClock now p.2 sessionId rs
    (p.1 :: q.1, q.2)

/-! ## Notification handlers (notification-dispatcher.py) -/

/-- `severity_levels.get(severity, 0)` (notification-dispatcher.py line 47). -/
def severityLevel (s : String) : Nat :=
  if s = "CRITICAL" then 4
  else if s = "HIGH" then 3
  else if s = "MEDIUM" then 2
  else if s = "LOW" then 1
  else 0

/-- `severity_levels.get(self.min_severity, 2)` (line 54): an unknown
configured minimum defaults to the MEDIUM level. -/
def minSeverityLevel (s : String) : Nat :=
  if s = "CRITICAL" then 4
  else if s = "HIGH" then 3
  else if s = "MEDIUM" then 2
  else if s = "LOW" then 1
  else 2

/-- Console output format. -/
inductive ConsoleFmt where
  | text : ConsoleFmt
  | json : ConsoleFmt
deriving DecidableEq, Repr

/-- ConsoleNotifier configuration (lines 31-47). -/
structure ConsoleCfg where
  enabled : Bool := true
  min_severity : String := "MEDIUM"
  fmt : ConsoleFmt := .text
deriving Repr

/-- `ConsoleNotifier.should_notify` (lines 49-55). -/
def shouldNotify (c : ConsoleCfg) (severity : String) : Bool :=
  if c.enabled = false then false
  else decide (minSeverityLevel c.min_severity ≤ severityLevel severity)

/-- LogFileNotifier configuration (rotation elided: no claim concerns it). -/
structure LogfileCfg where
  enabled : Bool := true
deriving Repr

/-- EmailNotifier configuration (lines 159-168). -/
structure EmailCfg where
  enabled : Bool := false
  recipients : List (String × List String) := []
deriving Repr

/-- `EmailNotifier._get_recipients` (lines 211-215): the severity's own list
when the key is present, else the default list, else empty. -/
def getRecipients (c : EmailCfg) (severity : String) : List String :=
  match c.recipients.lookup severity with
  | some l => l
  | none => (c.recipients.lookup "default").getD []

/-- WebhookNotifier configuration (lines 252-259).  `templateBad` records
whether the configured payload template renders to invalid JSON, in which case
`_create_payload`'s `json.loads` raises out of `send`. -/
structure WebhookCfg where
  enabled : Bool := false
  url : String := ""
  retry_attempts : Nat := 3
  templateBad : Bool := false
deriving Repr

/-- GrafanaNotifier configuration (lines 316-321). -/
structure GrafanaCfg where
  enabled : Bool := true
  api_key : String := ""
deriving Repr

/-- Outcome of one HTTP attempt: a transport error, or a response with the
given final status code (`raise_for_status` raises exactly for 400-599). -/
inductive HttpOutcome where
  | transportError : HttpOutcome
  | status : Nat → HttpOutcome
deriving DecidableEq, Repr

/-- Whether one webhook attempt succeeds: a response whose
`raise_for_status()` does not raise, i.e. status outside 400-599. -/
def attemptOk : HttpOutcome → Bool
  | .transportError => false
  | .status c => decide (c < 400 ∨ 600 ≤ c)

/-- Trace of one `WebhookNotifier.send` delivery loop. -/
structure WebhookTrace where
  success : Bool
  attemptsMade : Nat
  sleeps : List Nat
deriving DecidableEq, Repr

/-- The retry loop of `WebhookNotifier.send` (lines 270-290), recursing on the
remaining attempt budget; `i` is the 0-based attempt index.  After a failed
attempt that is not the last (`attempt < retry_attempts - 1`), the code sleeps
`2 ^ attempt` seconds. -/
def webhookLoop (att : Nat → HttpOutcome) (i : Nat) : Nat → WebhookTrace
  | 0 => { success := false, attemptsMade := 0, sleeps := [] }
  | remaining + 1 =>
    if attemptOk (att i) then
      { success := true, attemptsMade := 1, sleeps := [] }
    else
      let rest := webhookLoop att (i + 1) remaining
      { success := rest.success,
        attemptsMade := rest.attemptsMade + 1,
        sleeps := if 0 < remaining then 2 ^ i :: rest.sleeps else rest.sleeps }

/-- `WebhookNotifier.send` (lines 261-290) minus the payload-template failure,
which is modelled at the handler level: disabled or URL-less configs succeed
vacuously, otherwise the retry loop runs; exhausting all attempts returns
false. -/
def webhookSend (c : WebhookCfg) (att : Nat → HttpOutcome) : WebhookTrace :=
  if c.enabled = false ∨ c.url = "" then
    { success := true, attemptsMade := 0, sleeps := [] }
  else webhookLoop att 0 c.retry_attempts

/-- External world seen by the notification handlers in one dispatch. -/
structure ChanEnv where
  logfileWriteOk : Bool := true
  emailTransportOk : Bool := true
  webhookAttempt : Nat → HttpOutcome := fun _ => .status 200
  grafanaPostOk : Bool := true

/-- Result of one handler's `send` as the dispatcher sees it: returned True,
returned False, or raised. -/
inductive HRes where
  | ok : HRes
  | fail : HRes
  | exn : HRes
deriving DecidableEq, Repr

/-- A configured channel handler. -/
inductive Handler where
  | console : ConsoleCfg → Handler
  | logfile : LogfileCfg → Handler
  | email : EmailCfg → Handler
  | webhook : WebhookCfg → Handler
  | grafana : GrafanaCfg → Handler

/-- One handler's `send(alert)`.
Console (lines 57-90): filtered alerts return True; the text path parses the
alert timestamp inside try/except and returns False when it raises.
Logfile (lines 105-130): disabled returns True; a write error returns False.
Email (lines 170-209): disabled or no recipients returns True; the body
renders the timestamp and the SMTP send runs inside try/except.
Webhook (lines 261-290): a bad payload template raises out of `send`;
otherwise the retry loop decides.
Grafana (lines 323-361): disabled returns True; the timestamp parse or the
POST failing is caught and returns False; without an api_key nothing is
posted. -/
def handlerRun (env : ChanEnv) (h : Handler) (a : Alert) : HRes :=
  match h with
  | .console c =>
    if shouldNotify c a.severity = false then .ok
    else
      match c.fmt with
      | .json => .ok
      | .text => match fromisoE a.timestamp with
        | .ok _ => .ok
        | .error _ => .fail
  | .logfile c =>
    if c.enabled = false then .ok
    else if env.logfileWriteOk then .ok else .fail
  | .email c =>
    if c.enabled = false then .ok
    else if getRecipients c a.severity = [] then .ok
    else
      match fromisoE a.timestamp with
      | .error _ => .fail
      | .ok _ => if env.emailTransportOk then .ok else .fail
  | .webhook c =>
    if c.enabled = false ∨ c.url = "" then .ok
    else if c.templateBad then .exn
    else if (webhookSend c env.webhookAttempt).success then .ok else .fail
  | .grafana c =>
    if c.enabled = false then .ok
    else
      match fromisoE a.timestamp with
      | .error _ => .fail
      | .ok _ =>
        if c.api_key = "" then .ok
        else if env.grafanaPostOk then .ok else .fail

/-- The notifications section of the configuration: each channel handler is
registered exactly when its section is present (lines 367-388). -/
structure NotifCfg where
  console : Option ConsoleCfg := none
  logfile : Option LogfileCfg := none
  email : Option EmailCfg := none
  webhook : Option WebhookCfg := none
  grafana : Option GrafanaCfg := none

/-- `NotificationDispatcher.__init__`: the handler list, in registration
order. -/
def dispatcherHandlers (c : NotifCfg) : List Handler :=
  (c.console.toList.map Handler.console) ++
  (c.logfile.toList.map Handler.logfile) ++
  (c.email.toList.map Handler.email) ++
  (c.webhook.toList.map Handler.webhook) ++
  (c.grafana.toList.map Handler.grafana)

/-- What the dispatcher logs about one `send_alert` call: every handler
failed, some but not all succeeded, or no failure at all (lines 405-408). -/
inductive DispatchEvent where
  | allFailed : DispatchEvent
  | partialFailure : DispatchEvent
  | fullSuccess : DispatchEvent
deriving DecidableEq, Repr

/-- Result of `NotificationDispatcher.send_alert`. -/
structure DispatchOutcome where
  success : Bool
  results : List HRes
  event : DispatchEvent
deriving DecidableEq, Repr

/-- The dispatcher's handler loop (lines 395-400): each handler's `send` runs
inside its own try/except, an exception counts as no success, and the loop
always continues to the next handler.  Returns the success count and the
per-handler results in order. -/
def sendLoop (env : ChanEnv) (a : Alert) : List Handler → Nat × List HRes
  | [] => (0, [])
  | h :: hs =>
    let r := handlerRun env h a
    let rest := sendLoop env a hs
    ((if r = .ok then 1 else 0) + rest.1, r :: rest.2)

/-- `NotificationDispatcher.send_alert` (lines 390-410): overall success means
at least one handler succeeded; a strict subset of successes is recorded as a
partial failure. -/
def sendAlert (env : ChanEnv) (hs : List Handler) (a : Alert) :
    DispatchOutcome :=
  let p := sendLoop env a hs
  let success := decide (0 < p.1)
  { success := success,
    results := p.2,
    event :=
      if success = false then .allFailed
      else if p.1 < hs.length then .partialFailure
      else .fullSuccess }

/-! ## Rule engine and orchestrator (alert-engine.py lines 245-468) -/

/-- A compiled, enabled AlertRule (lines 48-60).  The compiled regex applied
to `json.dumps(log_entry)` is abstracted into a matcher predicate on records;
`matcher = none` models a rule with no pattern, which the pattern path skips
(line 375). -/
structure Rule where
  name : String
  severity : String := "MEDIUM"
  description : String := ""
  category : String := "general"
  context_fields : List String := []
  matcher : Option (Rec → Bool) := none

/-- The content string hashed by `SecurityAlertEngine._generate_alert_id`
(lines 437-440): rule name, the record's `session_id` (defaulting to the
empty string), and the record's raw timestamp string. -/
def engineAlertIdContent (ruleName : String) (r : Rec) : String :=
  ruleName ++ "_" ++ (r.session_id.getD "") ++ "_" ++ rawTs r.timestamp

/-- `SecurityAlertEngine._generate_alert_id`. -/
def engineGenerateAlertId (hash : String → String) (ruleName : String)
    (r : Rec) : String :=
  mdTrunc hash (engineAlertIdContent ruleName r)

/-- The timestamp handling of `_check_pattern_rule` (lines 417-419): an
absent timestamp string defaults to now, any other value — valid or
malformed — is kept as is. -/
def defaultTs (now : Int) : TsVal → TsVal
  | .missing => .valid now
  | t => t

/-- The alert `_check_pattern_rule` builds on a matcher hit (alert-engine.py
lines 400-431): context fields extracted with missing paths giving the empty
string, a missing timestamp defaulted to now, a missing session defaulted to
`"unknown"`. -/
def patternAlertOf (hash : String → String) (now : Int) (rule : Rule)
    (r : Rec) : Alert :=
  { alert_id := engineGenerateAlertId hash rule.name r,
    rule_name := rule.name,
    severity := rule.severity,
    description := rule.description,
    category := rule.category,
    timestamp := defaultTs now r.timestamp,
    session_id := r.session_id.getD "unknown",
    context := .patternCtx
      (rule.context_fields.map fun f => (f, (r.fields.lookup f).getD "")),
    raw_log := r }

/-- `SecurityAlertEngine._check_pattern_rule` (lines 395-435): a rule without
a compiled pattern never matches; otherwise the matcher decides whether the
alert is built. -/
def checkPatternRule (hash : String → String) (now : Int) (rule : Rule)
    (r : Rec) : Option Alert :=
  match rule.matcher with
  | none => none
  | some m =>
    if m r then some (patternAlertOf hash now rule r)
    else none

/-- Read a session's stats from the analyzer's `defaultdict`. -/
def sessionsGet (ss : List (String × SessionStats)) (sid : String) :
    SessionStats :=
  (ss.lookup sid).getD {}

/-- Store a session's stats back. -/
def sessionsSet (ss : List (String × SessionStats)) (sid : String)
    (v : SessionStats) : List (String × SessionStats) :=
  if (ss.lookup sid).isSome then
    ss.map (fun p => if p.1 = sid then (sid, v) else p)
  else ss ++ [(sid, v)]

/-- Processing of one log entry inside `process_logs` (lines 372-383): every
rule's pattern path, then the behavioral analyzer under the entry's session
(defaulting to `"unknown"`). -/
def evalEntry (hash : String → String) (now wallClock : Int)
    (rules : List Rule) (ss : List (String × SessionStats)) (r : Rec) :
    List Alert × List (String × SessionStats) :=
  let patternAlerts := rules.filterMap fun rule => checkPatternRule hash now rule r
  let sid := r.session_id.getD "unknown"
  let p := analyzeSession hash wallClock now (sessionsGet ss sid) sid r
  (patternAlerts ++ p.1, sessionsSet ss sid p.2)

/-- The entry loop of `process_logs`. -/
def evalLogs (hash : String → String) (now wallClock : Int)
    (rules : List Rule) (ss : List (String × SessionStats)) :
    List Rec → List Alert × List (String × SessionStats)
  | [] => ([], ss)
  | r :: rest =>
    let p := evalEntry hash now wallClock rules ss r
    let q := evalLogs hash now wallClock rules p.2 rest
    (p.1 ++ q.1, q.2)

/-- `LokiClient.query_range` (lines 71-107): a `requests.RequestException`
from the range query is caught inside the client, logged, and turned into an
empty result list — it never propagates to the caller. -/
def queryRange (net : Except Unit (List Rec)) : List Rec :=
  match net with
  | .error _ => []
  | .ok logs => logs

/-- Mutable engine state threaded through one cycle (fields of
SecurityAlertEngine, lines 248-257). -/
structure EngineState where
  rules : List Rule
  dedupCfg : DedupCfg
  dedupHist : List (String × List Int)
  sessions : List (String × SessionStats)
  last_check_time : Int
  alert_count : Nat
  error_count : Nat

/-- The outside world seen by one engine cycle: Loki reachability for the
`/ready` probe, the configured consecutive-error ceiling, the network outcome
of the range query, an optional index at which the evaluation loop raises,
the two clocks, the digest function, and the notification side. -/
structure EngineEnv where
  lokiReachable : Bool
  maxErrors : Nat
  net : Except Unit (List Rec)
  evalRaiseAt : Option Nat
  now : Int
  wallClock : Int
  hash : String → String
  chan : ChanEnv
  handlers : List Handler

/-- `SecurityAlertEngine.check_health` (lines 340-352): healthy when the Loki
`/ready` probe answers and the consecutive-error count is below the
configured ceiling. -/
def checkHealth (env : EngineEnv) (st : EngineState) : Bool :=
  if env.lokiReachable = false then false
  else if env.maxErrors ≤ st.error_count then false
  else true

/-- `SecurityAlertEngine.process_logs` (lines 354-393).  The query itself
cannot raise (`queryRange` absorbs request errors); an exception raised while
evaluating entry `k` leaves the partially accumulated alerts and session
updates, increments the error counter, and leaves `last_check_time` alone;
otherwise the cursor advances to `now` and the counter resets to zero. -/
def processLogs (env : EngineEnv) (st : EngineState) :
    List Alert × EngineState :=
  let logs := queryRange env.net
  match env.evalRaiseAt with
  | some k =>
    if k < logs.length then
      let p := evalLogs env.hash env.now env.wallClock st.rules st.sessions
        (logs.take k)
      (p.1, { st with sessions := p.2, error_count := st.error_count + 1 })
    else
      let p := evalLogs env.hash env.now env.wallClock st.rules st.sessions logs
      (p.1, { st with sessions := p.2, last_check_time := env.now,
                      error_count := 0 })
  | none =>
    let p := evalLogs env.hash env.now env.wallClock st.rules st.sessions logs
    (p.1, { st with sessions := p.2, last_check_time := env.now,
                    error_count := 0 })

/-- The alert loop of `run_once` (lines 450-463): each candidate goes through
`should_alert` (whose timestamp parse may raise out of `run_once`); accepted
alerts are dispatched — the dispatch itself sits in try/except, and the sent
and total counters advance whether or not the dispatcher reports success. -/
def dedupNotifyLoop (env : EngineEnv) (st : EngineState) :
    List Alert → Except Unit (EngineState × Nat)
  | [] => .ok (st, 0)
  | a :: rest =>
    match shouldAlert st.dedupCfg st.dedupHist a with
    | .error e => .error e
    | .ok (accepted, hist1) =>
      let st1 := { st with dedupHist := hist1 }
      if accepted then
        let _ := sendAlert env.chan env.handlers a
        match dedupNotifyLoop env
          { st1 with alert_count := st1.alert_count + 1 } rest with
        | .error e => .error e
        | .ok (st2, n) => .ok (st2, n + 1)
      else dedupNotifyLoop env st1 rest

/-- Result of `run_once`: the returned status code, the engine state after the
cycle, and how many Loki range queries the cycle issued. -/
structure RunResult where
  code : Nat
  state : EngineState
  lokiQueries : Nat

/-- `SecurityAlertEngine.run_once` (lines 442-468): an unhealthy check ends
the cycle with status 1 before any query; otherwise the cycle pulls once,
evaluates, deduplicates and dispatches, and returns status 0.  A ValueError
from the deduplicator propagates out. -/
def runOnce (env : EngineEnv) (st : EngineState) : Except Unit RunResult :=
  if checkHealth env st = false then .ok { code := 1, state := st, lokiQueries := 0 }
  else
    let p := processLogs env st
    match dedupNotifyLoop env p.2 p.1 with
    | .error e => .error e
    | .ok (st2, _) => .ok { code := 0, state := st2, lokiQueries := 1 }

/-! ## Helper lemmas -/

theorem sendLoop_spec (env : ChanEnv) (a : Alert) :
    ∀ hs : List Handler,
      (sendLoop env a hs).2 = hs.map (fun h => handlerRun env h a) ∧
      (sendLoop env a hs).1 =
        hs.countP (fun h => decide (handlerRun env h a = .ok))
  | [] => ⟨rfl, rfl⟩
  | h :: hs => by
    have ih := sendLoop_spec env a hs
    refine ⟨by simp [sendLoop, ih.1], ?_⟩
    simp only [sendLoop, ih.2, List.countP_cons]
    by_cases hr : handlerRun env h a = HRes.ok <;> simp [hr] <;> omega

/-! ## Claims -/

/-- Claim C2: `NotificationDispatcher.send_alert` returns true exactly when at
least one configured channel handler's send returns true; a handler that
fails or raises never prevents the remaining handlers from running (the
result list is the pointwise map of `handlerRun` over the handler list, so
each handler's outcome is independent of the others); and the call is
recorded as a partial failure exactly when some but not all handlers
succeed — in which case it still reports overall success. -/
theorem C2_send_alert_fanout (env : ChanEnv) (hs : List Handler) (a : Alert) :
    (sendAlert env hs a).results = hs.map (fun h => handlerRun env h a) ∧
    ((sendAlert env hs a).success = true ↔
      ∃ h ∈ hs, handlerRun env h a = .ok) ∧
    ((sendAlert env hs a).event = .partialFailure ↔
      (∃ h ∈ hs, handlerRun env h a = .ok) ∧
        ∃ h ∈ hs, ¬ handlerRun env h a = .ok) ∧
    ((sendAlert env hs a).event = .partialFailure →
      (sendAlert env hs a).success = true) := by
  obtain ⟨hres, hcnt⟩ := sendLoop_spec env a hs
  set n := (sendLoop env a hs).1 with hn
  have hpos : (0 < n) ↔ ∃ h ∈ hs, handlerRun env h a = .ok := by
    rw [hcnt, List.countP_pos_iff]
    simp
  have hlt : (n < hs.length) ↔ ∃ h ∈ hs, ¬ handlerRun env h a = .ok := by
    have hle : n ≤ hs.length := hcnt ▸ List.countP_le_length _
    constructor
    · intro hlt
      by_contra hc
      push_neg at hc
      have : n = hs.length := by
        rw [hcnt, List.countP_eq_length]
        intro h hh
        simp [hc h hh]
      omega
    · rintro ⟨h, hh, hne⟩
      rcases lt_or_eq_of_le hle with h1 | h1
      · exact h1
      · exfalso
        rw [hcnt, List.countP_eq_length] at h1
        exact hne (by simpa using h1 h hh)
  have hsucc : (sendAlert env hs a).success = decide (0 < n) := rfl
  have hev : (sendAlert env hs a).event =
      if decide (0 < n) = false then .allFailed
      else if n < hs.length then .partialFailure
      else .fullSuccess := rfl
  refine ⟨hres, ?_, ?_, ?_⟩
  · rw [hsucc, decide_eq_true_eq]
    exact hpos
  · rw [hev]
    by_cases h0 : 0 < n
    · by_cases h1 : n < hs.length <;>
        simp [h0, h1, hpos.symm, hlt.symm]
    · have hno : ¬ ∃ h ∈ hs, handlerRun env h a = HRes.ok :=
        fun hx => h0 (hpos.mpr hx)
      simp [h0, hno]
  · rw [hev, hsucc]
    by_cases h0 : 0 < n <;> simp [h0]

/-! ## Concrete fixtures used by witnesses and counterexamples -/

/-- An injective stand-in for the md5 hex digest. -/
def revHash : String → String := fun s => String.mk s.data.reverse

/-- A record signalling an out-of-scope action at instant 40 in session s. -/
def sampleRec : Rec :=
  { timestamp := .valid 40, session_id := some "s", outside_scope := true,
    fields := [] }

/-- A well-formed alert at instant 7. -/
def sampleAlert : Alert :=
  { alert_id := "aid", rule_name := "r", severity := "HIGH", description := "d",
    category := "c", timestamp := .valid 7, session_id := "s",
    context := .patternCtx [], raw_log := sampleRec }

/-- The same alert carrying an unparseable timestamp string. -/
def malformedAlert : Alert :=
  { sampleAlert with timestamp := .malformed "not-a-date" }

/-- A notifications config whose only section is an enabled Grafana channel
with an api key. -/
def grafanaOnlyCfg : NotifCfg :=
  { grafana := some { enabled := true, api_key := "k" } }

/-- Engine state before a cycle: cursor at 50, two consecutive errors. -/
def engineStFix : EngineState :=
  { rules := [], dedupCfg := {}, dedupHist := [], sessions := [],
    last_check_time := 50, alert_count := 0, error_count := 2 }

/-- Engine environment for a cycle at now = 60 whose range query fails with a
request exception. -/
def engineEnvFix : EngineEnv :=
  { lokiReachable := true, maxErrors := 5, net := .error (),
    evalRaiseAt := none, now := 60, wallClock := 1000, hash := revHash,
    chan := {}, handlers := [] }

/-- Claim C7 (evaluation at the failing input): with a notifications
configuration whose only channel is Grafana, `send_alert` returns true when
the Grafana annotation succeeds and false when it fails — so a Grafana
failure does fail the overall `send_alert` call, contrary to the claim (and
to the comment at notification-dispatcher.py line 361). -/
theorem C7_grafana_only_flips_result :
    (sendAlert { grafanaPostOk := true } (dispatcherHandlers grafanaOnlyCfg)
      sampleAlert).success = true ∧
    (sendAlert { grafanaPostOk := false } (dispatcherHandlers grafanaOnlyCfg)
      sampleAlert).success = false := by
  exact ⟨rfl, rfl⟩

/-- Claim C8: when the health check fails at the start of a `run_once`
cycle — the log source is unreachable, or the consecutive-error count has
reached the configured ceiling — the cycle returns status 1, issues no range
query, and the whole engine state (rules, session state, dedup history,
error counter, `last_check_time`) is returned unchanged. -/
theorem C8_unhealthy_cycle_is_noop (env : EngineEnv) (st : EngineState)
    (h : env.lokiReachable = false ∨ env.maxErrors ≤ st.error_count) :
    runOnce env st = .ok { code := 1, state := st, lokiQueries := 0 } := by
  have hch : checkHealth env st = false := by
    unfold checkHealth
    rcases h with h | h
    · simp [h]
    · split
      · rfl
      · simp [h]
  simp [runOnce, hch]

/-- Witness for C8: the concrete unhealthy environment (Loki unreachable)
leaves the concrete engine state untouched and returns status 1. -/
theorem C8_unhealthy_cycle_is_noop_witness :
    runOnce { engineEnvFix with lokiReachable := false } engineStFix =
      .ok { code := 1, state := engineStFix, lokiQueries := 0 } :=
  C8_unhealthy_cycle_is_noop { engineEnvFix with lokiReachable := false }
    engineStFix (Or.inl rfl)

/-- A notifications config with a console channel filtering below HIGH and an
email channel enabled with no recipient lists. -/
def filteredCfg : NotifCfg :=
  { console := some { min_severity := "HIGH" },
    email := some { enabled := true, recipients := [] } }

/-- Claim C10: with no channel sections configured the handler list is empty
and `send_alert` returns false for every alert; but a console handler whose
filter rejects the alert, a disabled email handler, or an email handler with
no recipients for the severity all return true from `send` and count toward
overall success — concretely, a LOW alert against `filteredCfg` reports
overall success although no channel delivered anything. -/
theorem C10_vacuous_success_semantics (env : ChanEnv) (a : Alert)
    (c : ConsoleCfg) (e : EmailCfg) :
    dispatcherHandlers {} = [] ∧
    (sendAlert env [] a).success = false ∧
    (shouldNotify c a.severity = false → handlerRun env (.console c) a = .ok) ∧
    (e.enabled = false → handlerRun env (.email e) a = .ok) ∧
    (e.enabled = true → getRecipients e a.severity = [] →
      handlerRun env (.email e) a = .ok) ∧
    (sendAlert {} (dispatcherHandlers filteredCfg)
      { sampleAlert with severity := "LOW" }).success = true ∧
    (sendAlert {} (dispatcherHandlers filteredCfg)
      { sampleAlert with severity := "LOW" }).results = [.ok, .ok] := by
  refine ⟨rfl, rfl, ?_, ?_, ?_, rfl, rfl⟩
  · intro hflt
    simp [handlerRun, hflt]
  · intro hdis
    simp [handlerRun, hdis]
  · intro hen hrec
    simp [handlerRun, hen, hrec]

/-- Witness for C10 at concrete inputs: a console config filtering at HIGH
and an empty-recipient email config on a LOW alert. -/
theorem C10_vacuous_success_semantics_witness :
    (shouldNotify { min_severity := "HIGH" }
        ({ sampleAlert with severity := "LOW" } : Alert).severity = false →
      handlerRun {} (.console { min_severity := "HIGH" })
        { sampleAlert with severity := "LOW" } = .ok) ∧
    (({ enabled := true, recipients := [] } : EmailCfg).enabled = true →
      getRecipients { enabled := true, recipients := [] }
          ({ sampleAlert with severity := "LOW" } : Alert).severity = [] →
      handlerRun {} (.email { enabled := true, recipients := [] })
        { sampleAlert with severity := "LOW" } = .ok) ∧
    handlerRun {} (.console { min_severity := "HIGH" })
      { sampleAlert with severity := "LOW" } = .ok :=
  have h := C10_vacuous_success_semantics {}
    { sampleAlert with severity := "LOW" } { min_severity := "HIGH" }
    { enabled := true, recipients := [] }
  ⟨h.2.2.1, h.2.2.2.2.1, h.2.2.1 rfl⟩

/-- Claim C3 counterexample: a request-level failure of the range query
(`requests.RequestException`, modelled as `net = .error ()`) does NOT
increment the consecutive-error counter and does NOT leave `last_check_time`
unchanged: starting from cursor 50 and error count 2, the cycle ends with
cursor advanced to now = 60 and the counter reset to 0, because
`LokiClient.query_range` swallows the exception and returns an empty list. -/
theorem C3_query_failure_counterexample :
    engineStFix.last_check_time = 50 ∧ engineStFix.error_count = 2 ∧
    engineEnvFix.net = .error () ∧
    (processLogs engineEnvFix engineStFix).2.last_check_time = 60 ∧
    (processLogs engineEnvFix engineStFix).2.error_count = 0 :=
  ⟨rfl, rfl, rfl, rfl, rfl⟩

/-- Claim C3 (amended): a log-source request failure is absorbed inside
`LokiClient.query_range`, which logs it and returns an empty list, so the
pull/evaluate phase completes: `last_check_time` advances to now and the
error counter resets to zero (the failed range is NOT re-queried).  Only an
exception raised inside the evaluation loop itself increments the counter and
leaves `last_check_time` unchanged; any cycle whose pull/evaluate phase
completes resets the counter to zero. -/
theorem C3_error_accounting (env : EngineEnv) (st : EngineState) :
    (env.net = .error () →
      queryRange env.net = [] ∧
      (processLogs env st).2.last_check_time = env.now ∧
      (processLogs env st).2.error_count = 0) ∧
    (∀ k logs, env.net = .ok logs → env.evalRaiseAt = some k →
      k < logs.length →
      (processLogs env st).2.last_check_time = st.last_check_time ∧
      (processLogs env st).2.error_count = st.error_count + 1) ∧
    (env.evalRaiseAt = none →
      (processLogs env st).2.last_check_time = env.now ∧
      (processLogs env st).2.error_count = 0) := by
  refine ⟨?_, ?_, ?_⟩
  · intro hnet
    have hq : queryRange env.net = [] := by rw [hnet]; rfl
    refine ⟨hq, ?_, ?_⟩ <;>
      · unfold processLogs
        rw [hq]
        match hra : env.evalRaiseAt with
        | none => rfl
        | some k => simp
  · intro k logs hnet hra hk
    have hq : queryRange env.net = logs := by rw [hnet]; rfl
    unfold processLogs
    rw [hq, hra]
    simp [hk]
  · intro hra
    unfold processLogs
    rw [hra]
    exact ⟨rfl, rfl⟩

/-- Engine environment whose query succeeds with one record but whose
evaluation loop raises at index 0. -/
def engineEnvRaise : EngineEnv :=
  { engineEnvFix with net := .ok [sampleRec], evalRaiseAt := some 0 }

/-- Witness for C3's amended theorem: the query-failure branch at the
concrete fixtures, and the evaluation-exception branch at a one-record log
with the exception at index 0. -/
theorem C3_error_accounting_witness :
    ((processLogs engineEnvFix engineStFix).2.last_check_time = 60 ∧
      (processLogs engineEnvFix engineStFix).2.error_count = 0) ∧
    ((processLogs engineEnvRaise engineStFix).2.last_check_time = 50 ∧
      (processLogs engineEnvRaise engineStFix).2.error_count = 2 + 1) :=
  have h1 := (C3_error_accounting engineEnvFix engineStFix).1 rfl
  have h2 := ((C3_error_accounting engineEnvRaise engineStFix).2.1)
    0 [sampleRec] rfl rfl (by decide)
  ⟨⟨h1.2.1, h1.2.2⟩, ⟨h2.1, h2.2⟩⟩

/-- Claim C4 counterexample: an alert carrying a malformed timestamp string
does NOT pass through deduplication without raising: with the default
(enabled) deduplication configuration, `should_alert` raises ValueError from
`datetime.fromisoformat` (alert-engine.py line 144), and `run_once` does not
catch it. -/
theorem C4_malformed_ts_raises_in_dedup :
    ({} : DedupCfg).enabled = true ∧
    malformedAlert.timestamp = .malformed "not-a-date" ∧
    shouldAlert {} [] malformedAlert = .error () :=
  ⟨rfl, rfl, rfl⟩

/-- Claim C4 (amended): the Behavioral Analyzer does degrade a missing or
unparseable record timestamp to the current time, and the notification
handlers catch their own timestamp-parsing failures (console, email and
grafana return False rather than raising); but the Deduplicator parses
`alert.timestamp` unguarded, so an enabled Deduplicator raises ValueError on
an alert whose timestamp string is malformed or empty, aborting the cycle
(only a disabled Deduplicator passes such an alert through). -/
theorem C4_timestamp_degradation (now : Int) (s : String) (cfg : DedupCfg)
    (hist : List (String × List Int)) (a : Alert) (c : ConsoleCfg)
    (e : EmailCfg) (g : GrafanaCfg) (env : ChanEnv) :
    effTime now .missing = now ∧
    effTime now (.malformed s) = now ∧
    (∀ t, effTime now (.valid t) = t) ∧
    (cfg.enabled = true → a.timestamp = .malformed s →
      shouldAlert cfg hist a = .error ()) ∧
    (cfg.enabled = true → a.timestamp = .missing →
      shouldAlert cfg hist a = .error ()) ∧
    (cfg.enabled = false → shouldAlert cfg hist a = .ok (true, hist)) ∧
    handlerRun env (.console c) a ≠ .exn ∧
    handlerRun env (.email e) a ≠ .exn ∧
    handlerRun env (.grafana g) a ≠ .exn := by
  refine ⟨rfl, rfl, fun t => rfl, ?_, ?_, ?_, ?_, ?_, ?_⟩
  · intro hen hts
    simp [shouldAlert, hen, hts, fromisoE]
  · intro hen hts
    simp [shouldAlert, hen, hts, fromisoE]
  · intro hdis
    simp [shouldAlert, hdis]
  · by_cases hn : shouldNotify c a.severity = false
    · simp [handlerRun, hn]
    · cases hf : c.fmt <;> cases hts : fromisoE a.timestamp <;>
        simp [handlerRun, hn, hf, hts]
  · by_cases h1 : e.enabled = false
    · simp [handlerRun, h1]
    · by_cases h2 : getRecipients e a.severity = []
      · simp [handlerRun, h1, h2]
      · cases hts : fromisoE a.timestamp <;>
          by_cases h3 : env.emailTransportOk <;>
          simp [handlerRun, h1, h2, hts, h3]
  · by_cases h1 : g.enabled = false
    · simp [handlerRun, h1]
    · cases hts : fromisoE a.timestamp <;>
        by_cases h2 : g.api_key = "" <;>
        by_cases h3 : env.grafanaPostOk <;>
        simp [handlerRun, h1, hts, h2, h3]

/-- Witness for C4's amended theorem at concrete inputs: the malformed-string
fallback at now = 9, and the dedup ValueError on the concrete malformed
alert. -/
theorem C4_timestamp_degradation_witness :
    effTime 9 (.malformed "zzz") = 9 ∧
    shouldAlert {} [] malformedAlert = .error () ∧
    shouldAlert { enabled := false } [] malformedAlert = .ok (true, []) :=
  have h := C4_timestamp_degradation 9 "not-a-date" {} [] malformedAlert
    {} {} {} {}
  have h2 := C4_timestamp_degradation 9 "zzz" { enabled := false } []
    malformedAlert {} {} {} {}
  ⟨h2.2.1, h.2.2.2.1 rfl rfl, h2.2.2.2.2.2.1 rfl⟩

theorem webhookLoop_attempts_le (att : Nat → HttpOutcome) :
    ∀ r i, (webhookLoop att i r).attemptsMade ≤ r
  | 0, _ => Nat.le_refl 0
  | r + 1, i => by
    simp only [webhookLoop]
    split
    · simp
    · have := webhookLoop_attempts_le att r (i + 1)
      simp only
      omega

theorem webhookLoop_attempts_pos (att : Nat → HttpOutcome) (r i : Nat)
    (h : 0 < r) : 0 < (webhookLoop att i r).attemptsMade := by
  cases r with
  | zero => omega
  | succ r =>
    simp only [webhookLoop]
    split <;> simp

theorem webhookLoop_success_iff (att : Nat → HttpOutcome) :
    ∀ r i, ((webhookLoop att i r).success = true ↔
      ∃ j, j < r ∧ attemptOk (att (i + j)))
  | 0, i => by simp [webhookLoop]
  | r + 1, i => by
    simp only [webhookLoop]
    split
    · rename_i hok
      simp only [true_iff]
      exact ⟨0, by omega, by simpa using hok⟩
    · rename_i hko
      have ih := webhookLoop_success_iff att r (i + 1)
      simp only
      constructor
      · intro hs
        obtain ⟨j, hj, ho⟩ := ih.mp hs
        refine ⟨j + 1, by omega, ?_⟩
        have he : i + (j + 1) = i + 1 + j := by omega
        rw [he]
        exact ho
      · rintro ⟨j, hj, ho⟩
        cases j with
        | zero =>
          exact absurd (by simpa using ho) (by simpa using hko)
        | succ j =>
          refine ih.mpr ⟨j, by omega, ?_⟩
          have he : i + 1 + j = i + (j + 1) := by omega
          rw [he]
          exact ho

theorem webhookLoop_sleeps_eq (att : Nat → HttpOutcome) :
    ∀ r i, (webhookLoop att i r).sleeps =
      (List.range ((webhookLoop att i r).attemptsMade - 1)).map
        (fun j => 2 ^ (i + j))
  | 0, _ => by simp [webhookLoop]
  | r + 1, i => by
    simp only [webhookLoop]
    split
    · simp
    · by_cases hr : 0 < r
      · have hpos := webhookLoop_attempts_pos att r (i + 1) hr
        have ih := webhookLoop_sleeps_eq att r (i + 1)
        obtain ⟨m, hm⟩ : ∃ m, (webhookLoop att (i + 1) r).attemptsMade = m + 1 :=
          ⟨_, (Nat.succ_pred_eq_of_pos hpos).symm⟩
        simp only [hr, if_pos, ih, hm, Nat.add_sub_cancel,
          List.range_succ_eq_map, List.map_cons, List.map_map]
        refine List.cons_eq_cons.mpr ⟨by norm_num, ?_⟩
        apply List.map_congr_left
        intro j hj
        simp only [Function.comp_apply]
        congr 1
        omega
      · have hr0 : r = 0 := by omega
        subst hr0
        simp [webhookLoop]

/-- Claim C6 counterexample: a non-2xx response does not always lead to
another attempt: a final status of 304 — not a 2xx — is not raised by
`raise_for_status` (which raises only for 400-599), so `WebhookNotifier.send`
returns true on the first attempt with no retries. -/
theorem C6_non2xx_immediate_success :
    webhookSend { enabled := true, url := "http://h", retry_attempts := 3 }
        (fun _ => .status 304) =
      { success := true, attemptsMade := 1, sleeps := [] } ∧
    ¬ (200 ≤ 304 ∧ 304 < 300) :=
  ⟨rfl, by decide⟩

/-- Claim C6 (amended): an enabled webhook with a URL attempts delivery at
most `retry_attempts` times, sleeping 2 to the power of the 0-based attempt
index between consecutive attempts; any attempt whose response
`raise_for_status` accepts (status outside 400-599; in particular any 2xx)
returns true immediately, a 4xx/5xx response or transport error leads to
another attempt, and exhausting all attempts returns false without raising
past the dispatcher.  With retry count 3, three HTTP 500 responses yield
handler failure after sleeps of 1 and 2 seconds, while a 200 on the 2nd
attempt after one 500 yields handler success. -/
theorem C6_webhook_retry_semantics (c : WebhookCfg) (att : Nat → HttpOutcome)
    (hen : c.enabled = true) (hurl : ¬ c.url = "") :
    (webhookSend c att).attemptsMade ≤ c.retry_attempts ∧
    ((webhookSend c att).success = true ↔
      ∃ j, j < c.retry_attempts ∧ attemptOk (att j)) ∧
    (webhookSend c att).sleeps =
      (List.range ((webhookSend c att).attemptsMade - 1)).map (fun j => 2 ^ j) ∧
    webhookSend { c with retry_attempts := 3 } (fun _ => .status 500) =
      { success := false, attemptsMade := 3, sleeps := [1, 2] } ∧
    webhookSend { c with retry_attempts := 3 }
        (fun i => if i = 0 then .status 500 else .status 200) =
      { success := true, attemptsMade := 2, sleeps := [1] } ∧
    (c.templateBad = false → ∀ env a,
      handlerRun env (.webhook c) a ≠ .exn) := by
  have hsend : webhookSend c att = webhookLoop att 0 c.retry_attempts := by
    simp [webhookSend, hen, hurl]
  refine ⟨?_, ?_, ?_, ?_, ?_, ?_⟩
  · rw [hsend]
    exact webhookLoop_attempts_le att c.retry_attempts 0
  · rw [hsend]
    simpa using webhookLoop_success_iff att c.retry_attempts 0
  · rw [hsend]
    simpa using webhookLoop_sleeps_eq att c.retry_attempts 0
  · simp only [webhookSend, hen, hurl]
    norm_num
    rfl
  · simp only [webhookSend, hen, hurl]
    norm_num
    rfl
  · intro htb env a
    simp only [handlerRun, hen, hurl, htb]
    norm_num
    split <;> simp

/-- Witness for C6's amended theorem at the concrete claim scenarios: retry
count 3 with three 500s fails after sleeping 1 then 2 seconds; a 500 followed
by a 200 succeeds on the second attempt. -/
theorem C6_webhook_retry_semantics_witness :
    webhookSend { enabled := true, url := "http://h", retry_attempts := 3 }
        (fun _ => .status 500) =
      { success := false, attemptsMade := 3, sleeps := [1, 2] } ∧
    webhookSend { enabled := true, url := "http://h", retry_attempts := 3 }
        (fun i => if i = 0 then .status 500 else .status 200) =
      { success := true, attemptsMade := 2, sleeps := [1] } :=
  have h := C6_webhook_retry_semantics
    { enabled := true, url := "http://h", retry_attempts := 3 }
    (fun _ => .status 500) rfl (by decide)
  ⟨h.2.2.2.1, h.2.2.2.2.1⟩

/-- The HIGH alert the repeated-scope detector emits, spelled out field by
field (alert-engine.py lines 221-234). -/
def scopeAlertOf (hash : String → String) (wall now : Int) (st : SessionStats)
    (sid : String) (r : Rec) : Alert :=
  { alert_id := behavioralGenerateAlertId hash "repeated_scope" sid wall,
    rule_name := "repeated_scope_violations",
    severity := "HIGH",
    description := "Multiple scope violations in session",
    category := "behavioral_anomaly",
    timestamp := .valid (effTime now r.timestamp),
    session_id := sid,
    context := .repeatedScope (st.scope_violations + 1)
      (effTime now r.timestamp - st.start_time.getD (effTime now r.timestamp)),
    raw_log := r }

/-- Specification-side firing pattern of the repeated-scope detector: given
the incoming violation count, a record fires exactly when it signals an
out-of-scope action and the cumulative violation count, counting it, has
reached 3. -/
def scopeFirings (v : Nat) : List Rec → List Bool
  | [] => []
  | r :: rs =>
    let v2 := if r.outside_scope then v + 1 else v
    decide (r.outside_scope = true ∧ 3 ≤ v2) :: scopeFirings v2 rs

theorem analyzeSession_viol (hash : String → String) (wall now : Int)
    (st : SessionStats) (sid : String) (r : Rec) :
    (analyzeSession hash wall now st sid r).2.scope_violations =
      st.scope_violations + (if r.outside_scope then 1 else 0) := by
  by_cases ho : r.outside_scope <;> simp [analyzeSession, ho]

theorem analyzeSession_scope_filter (hash : String → String) (wall now : Int)
    (st : SessionStats) (sid : String) (r : Rec) :
    (analyzeSession hash wall now st sid r).1.filter
        (fun b => decide (b.rule_name = "repeated_scope_violations")) =
      (if r.outside_scope = true ∧ 3 ≤ st.scope_violations + 1 then
        [scopeAlertOf hash wall now st sid r]
      else []) := by
  by_cases ho : r.outside_scope
  · by_cases h3 : 3 ≤ st.scope_violations + 1
    · simp only [analyzeSession, ho, if_true, h3, and_true, true_and,
        if_pos, List.filter_append, scopeAlertOf]
      split <;> simp [List.filter_cons, h3]
    · simp only [analyzeSession, ho, if_true, h3, and_true, true_and,
        List.filter_append]
      split <;> simp [List.filter_cons, h3]
  · simp only [analyzeSession, ho, if_false, and_false, false_and,
      List.filter_append]
    split <;> simp [List.filter_cons, ho]

theorem analyzeSession_scope_exists (hash : String → String) (wall now : Int)
    (st : SessionStats) (sid : String) (r : Rec) :
    ((∃ b ∈ (analyzeSession hash wall now st sid r).1,
        b.rule_name = "repeated_scope_violations") ↔
      (r.outside_scope = true ∧ 3 ≤ st.scope_violations + 1)) := by
  have h2 := analyzeSession_scope_filter hash wall now st sid r
  constructor
  · rintro ⟨b, hb, hbn⟩
    have hmem : b ∈ (analyzeSession hash wall now st sid r).1.filter
        (fun b => decide (b.rule_name = "repeated_scope_violations")) :=
      List.mem_filter.mpr ⟨hb, by simp [hbn]⟩
    rw [h2] at hmem
    by_cases hc : r.outside_scope = true ∧ 3 ≤ st.scope_violations + 1
    · exact hc
    · rw [if_neg hc] at hmem
      simp at hmem
  · intro hc
    have hmem : scopeAlertOf hash wall now st sid r ∈
        (analyzeSession hash wall now st sid r).1.filter
          (fun b => decide (b.rule_name = "repeated_scope_violations")) := by
      rw [h2, if_pos hc]
      exact List.mem_singleton_self _
    have hm := List.mem_filter.mp hmem
    exact ⟨scopeAlertOf hash wall now st sid r, hm.1, by simpa using hm.2⟩

theorem analyzeTrace_viol (hash : String → String) (wall now : Int)
    (sid : String) :
    ∀ (recs : List Rec) (st : SessionStats),
      (analyzeTrace hash wall now st sid recs).2.scope_violations =
        st.scope_violations + recs.countP (fun x => x.outside_scope)
  | [], st => by simp [analyzeTrace]
  | r :: rs, st => by
    simp only [analyzeTrace, List.countP_cons]
    rw [analyzeTrace_viol hash wall now sid rs _, analyzeSession_viol]
    by_cases ho : r.outside_scope <;> simp [ho] <;> omega

theorem analyzeTrace_firings (hash : String → String) (wall now : Int)
    (sid : String) :
    ∀ (recs : List Rec) (st : SessionStats),
      (analyzeTrace hash wall now st sid recs).1.map
          (fun out => decide (∃ b ∈ out,
            b.rule_name = "repeated_scope_violations")) =
        scopeFirings st.scope_violations recs
  | [], _ => rfl
  | r :: rs, st => by
    simp only [analyzeTrace, scopeFirings, List.map_cons]
    refine List.cons_eq_cons.mpr ⟨?_, ?_⟩
    · rw [decide_eq_decide]
      rw [analyzeSession_scope_exists]
      by_cases ho : r.outside_scope <;> simp [ho]
    · rw [analyzeTrace_firings hash wall now sid rs _]
      have hv := analyzeSession_viol hash wall now st sid r
      by_cases ho : r.outside_scope
      · rw [hv]
        simp [ho]
      · rw [hv]
        simp [ho]

/-- Claim C5: the repeated-scope-violation detector keeps a monotonic
per-session counter, incremented exactly on records signalling an
out-of-scope action and never reset while the session state lives (over any
record sequence it equals the incoming count plus the number of violating
records); on each single call the detector emits exactly one HIGH
`repeated_scope_violations` alert, with context (violation_count,
session_duration), precisely when the record violates and the cumulative
count has reached 3 — equivalently, over a whole run the firing pattern is:
the 3rd and every subsequent violating record fires, pre-dedup. -/
theorem C5_repeated_scope_detector (hash : String → String) (wall now : Int)
    (st : SessionStats) (sid : String) (r : Rec) (recs : List Rec) :
    ((analyzeSession hash wall now st sid r).2.scope_violations =
      st.scope_violations + (if r.outside_scope then 1 else 0)) ∧
    ((analyzeSession hash wall now st sid r).1.filter
        (fun b => decide (b.rule_name = "repeated_scope_violations")) =
      (if r.outside_scope = true ∧ 3 ≤ st.scope_violations + 1 then
        [scopeAlertOf hash wall now st sid r]
      else [])) ∧
    ((analyzeTrace hash wall now st sid recs).2.scope_violations =
      st.scope_violations + recs.countP (fun x => x.outside_scope)) ∧
    ((analyzeTrace hash wall now st sid recs).1.map
        (fun out => decide (∃ b ∈ out,
          b.rule_name = "repeated_scope_violations")) =
      scopeFirings st.scope_violations recs) :=
  ⟨analyzeSession_viol hash wall now st sid r,
   analyzeSession_scope_filter hash wall now st sid r,
   analyzeTrace_viol hash wall now sid recs st,
   analyzeTrace_firings hash wall now sid recs st⟩

/-- A pattern rule matching every record. -/
def sampleRule : Rule :=
  { name := "dangerous_cmd", severity := "CRITICAL",
    matcher := some (fun _ => true) }

/-- The alert `sampleRule` produces on `sampleRec` at now = 50. -/
def patternAlertFix : Alert :=
  (checkPatternRule revHash 50 sampleRule sampleRec).getD sampleAlert

/-- The repeated-scope alert emitted for `sampleRec` at wall clock 100 from a
session state with two prior violations. -/
def scopeAlertFix : Alert :=
  ((analyzeSession revHash 100 50 { scope_violations := 2 } "s" sampleRec).1).headD
    sampleAlert

theorem checkPatternRule_eq_none (hash : String → String) (now : Int)
    (rule : Rule) (r : Rec) (hm : rule.matcher = none) :
    checkPatternRule hash now rule r = none := by
  unfold checkPatternRule
  rw [hm]

theorem checkPatternRule_eq_ite (hash : String → String) (now : Int)
    (rule : Rule) (r : Rec) (m : Rec → Bool) (hm : rule.matcher = some m) :
    checkPatternRule hash now rule r =
      if m r then some (patternAlertOf hash now rule r) else none := by
  unfold checkPatternRule
  rw [hm]

set_option maxHeartbeats 1600000

/-- Claim C9 counterexample: behavioral alert ids are not a content hash of
the rule name, the session and the record's timestamp: with the same rule
(repeated_scope_violations), the same session and the very same record, two
runs at wall-clock seconds 100 and 101 produce different alert ids (shown
with an injective digest stand-in), because
`BehavioralAnalyzer._generate_alert_id` hashes a short rule type together
with `int(time.time())`; the hashed content never mentions the record's
timestamp, and differs from the content the claim prescribes. -/
theorem C9_behavioral_id_not_deterministic :
    ((analyzeSession revHash 100 50 { scope_violations := 2 } "s"
        sampleRec).1.map Alert.alert_id) ≠
      ((analyzeSession revHash 101 50 { scope_violations := 2 } "s"
        sampleRec).1.map Alert.alert_id) ∧
    behavioralAlertIdContent "repeated_scope" "s" 100 ≠
      engineAlertIdContent "repeated_scope_violations" sampleRec := by
  refine ⟨by decide, by decide⟩

set_option maxHeartbeats 200000

/-- Claim C9 (amended): pattern-rule alerts do carry
`alert_id = first 12 hex characters of a content hash of rule name, record
session id (defaulting to empty) and the record's raw timestamp string`, so
their id is deterministic given the rule and the record; but behavioral
alerts instead hash a short rule type ("high_frequency" or "repeated_scope"),
the session id, and the current wall-clock epoch seconds — not the record's
timestamp — so their ids are not deterministic given the rule and the
record. -/
theorem C9_alert_id_derivation (hash : String → String) (now wall : Int)
    (rule : Rule) (r r2 : Rec) (a : Alert) (st : SessionStats)
    (sid : String) :
    (checkPatternRule hash now rule r = some a →
      a.alert_id =
        mdTrunc hash (rule.name ++ "_" ++ (r.session_id.getD "") ++ "_" ++
          rawTs r.timestamp)) ∧
    (r.session_id = r2.session_id → r.timestamp = r2.timestamp →
      engineGenerateAlertId hash rule.name r =
        engineGenerateAlertId hash rule.name r2) ∧
    (∀ b ∈ (analyzeSession hash wall now st sid r).1,
      (b.rule_name = "high_frequency_operations" ∧
        b.alert_id = behavioralGenerateAlertId hash "high_frequency" sid wall) ∨
      (b.rule_name = "repeated_scope_violations" ∧
        b.alert_id =
          behavioralGenerateAlertId hash "repeated_scope" sid wall)) := by
  refine ⟨?_, ?_, ?_⟩
  · intro h
    rcases hm : rule.matcher with _ | m
    · rw [checkPatternRule_eq_none hash now rule r hm] at h
      exact absurd h (by simp)
    · rw [checkPatternRule_eq_ite hash now rule r m hm] at h
      by_cases hmr : m r = true
      · rw [if_pos hmr] at h
        injection h with h
        subst h
        rfl
      · rw [if_neg hmr] at h
        exact absurd h (by simp)
  · intro h1 h2
    simp [engineGenerateAlertId, engineAlertIdContent, h1, h2]
  · intro b hb
    simp only [analyzeSession] at hb
    rw [List.mem_append] at hb
    rcases hb with hb | hb
    · left
      repeat' split at hb
      all_goals
        first
          | exact absurd hb (List.not_mem_nil b)
          | (rw [List.mem_singleton] at hb; subst hb; exact ⟨rfl, rfl⟩)
    · right
      repeat' split at hb
      all_goals
        first
          | exact absurd hb (List.not_mem_nil b)
          | (rw [List.mem_singleton] at hb; subst hb; exact ⟨rfl, rfl⟩)

/-- Witness for C9's amended theorem at concrete inputs: the pattern alert of
`sampleRule` on `sampleRec`, and the concrete repeated-scope alert at wall
clock 100. -/
theorem C9_alert_id_derivation_witness :
    patternAlertFix.alert_id =
      mdTrunc revHash ("dangerous_cmd" ++ "_" ++ "s" ++ "_" ++
        rawTs sampleRec.timestamp) ∧
    ((scopeAlertFix.rule_name = "high_frequency_operations" ∧
        scopeAlertFix.alert_id =
          behavioralGenerateAlertId revHash "high_frequency" "s" 100) ∨
      (scopeAlertFix.rule_name = "repeated_scope_violations" ∧
        scopeAlertFix.alert_id =
          behavioralGenerateAlertId revHash "repeated_scope" "s" 100)) :=
  have h := C9_alert_id_derivation revHash 50 100 sampleRule sampleRec
    sampleRec patternAlertFix { scope_violations := 2 } "s"
  ⟨h.1 (by decide), h.2.2 scopeAlertFix (by decide)⟩

/-- Number of entries lying in the closed window of width `w` ending at
`T`. -/
def countWin (w T : Int) (l : List Int) : Nat :=
  l.countP fun x => decide (T - w ≤ x ∧ x ≤ T)

/-- Claim C1 counterexample: processing the timestamp sequence
91, 95, 1000, 100 (same dedup key) with max_occurrences 2 and a 10-minute
window accepts all four alerts, so 3 accepted alerts (91, 95, 100) lie in the
single window (90, 100) — more than max_occurrences.  The cleanup pops only a
prefix of the deque, so the out-of-order call at 1000 discards the whole
in-window history.  Moreover on 10, 2, 13 (max 2, window 8) the code rejects
the third alert while the algorithm described by the claim (drop all
timestamps older than the cutoff) accepts it. -/
theorem C1_window_overflow_counterexample :
    dedupDecisions 2 10 [] [91, 95, 1000, 100] = [true, true, true, true] ∧
    countWin 10 100 (acceptedTimes 2 10 [] [91, 95, 1000, 100]) = 3 ∧
    dedupDecisions 2 8 [] [10, 2, 13] = [true, true, false] ∧
    dedupDecisionsSpec 2 8 [] [10, 2, 13] = [true, true, true] := by
  refine ⟨by decide, by decide, by decide, by decide⟩

theorem sorted_dropWhile_eq_filter (c : Int) :
    ∀ (l : List Int), List.Sorted (· ≤ ·) l →
      l.dropWhile (fun x => decide (x < c)) = l.filter (fun x => decide (c ≤ x))
  | [], _ => rfl
  | a :: t, hs => by
    obtain ⟨ha, ht⟩ := List.sorted_cons.mp hs
    by_cases hac : a < c
    · have h2 : ¬ c ≤ a := by omega
      simp only [List.dropWhile_cons, List.filter_cons]
      rw [if_pos (by simpa using hac), if_neg (by simpa using h2)]
      exact sorted_dropWhile_eq_filter c t ht
    · have h2 : c ≤ a := by omega
      simp only [List.dropWhile_cons, List.filter_cons]
      rw [if_neg (by simpa using hac), if_pos (by simpa using h2)]
      rw [List.filter_eq_self.mpr fun b hb => by
        simpa using le_trans h2 (ha b hb)]

theorem acceptedTimes_subset (m : Nat) (w : Int) :
    ∀ (ts : List Int) (h : List Int) (x : Int),
      x ∈ acceptedTimes m w h ts → x ∈ ts
  | [], _, x, hx => absurd hx (List.not_mem_nil x)
  | t :: ts, h, x, hx => by
    simp only [acceptedTimes] at hx
    rcases List.mem_append.mp hx with hx | hx
    · split at hx
      · rw [List.mem_singleton] at hx
        exact hx ▸ List.mem_cons_self t ts
      · exact absurd hx (List.not_mem_nil x)
    · exact List.mem_cons_of_mem t (acceptedTimes_subset m w ts _ x hx)

theorem countWin_dropWhile_eq (w T t : Int) (h : List Int) (hT : t ≤ T) :
    countWin w T (h.dropWhile fun x => decide (x < t - w)) = countWin w T h := by
  conv_rhs =>
    rw [← List.takeWhile_append_dropWhile (fun x => decide (x < t - w)) h]
  unfold countWin
  rw [List.countP_append]
  have hz : (h.takeWhile fun x => decide (x < t - w)).countP
      (fun x => decide (T - w ≤ x ∧ x ≤ T)) = 0 := by
    rw [List.countP_eq_zero]
    intro x hx
    have hxlt : x < t - w := by simpa using List.mem_takeWhile_imp hx
    simp only [decide_eq_true_eq, not_and]
    intro _
    omega
  omega

theorem countWin_le_length (w T : Int) (l : List Int) :
    countWin w T l ≤ l.length :=
  List.countP_le_length _

/-- The central window invariant: starting from any history of at most `m`
recorded timestamps, a run of calls with nondecreasing alert times accepts —
counting the window contribution of the starting history — at most `m`
alerts inside any closed window of width `w`. -/
theorem dedup_window_invariant (m : Nat) (w T : Int) :
    ∀ (ts : List Int), List.Sorted (· ≤ ·) ts →
      ∀ (h : List Int), h.length ≤ m →
        countWin w T h + countWin w T (acceptedTimes m w h ts) ≤ m
  | [], _, h, hl => by
    have hle : List.countP (fun x => decide (T - w ≤ x ∧ x ≤ T)) h ≤ h.length :=
      List.countP_le_length _
    simp only [acceptedTimes, countWin, List.countP_nil]
    omega
  | t :: ts, hs, h, hl => by
    obtain ⟨hts, hsorted⟩ := List.sorted_cons.mp hs
    simp only [acceptedTimes]
    have hclean_le : (h.dropWhile fun x => decide (x < t - w)).length ≤ h.length :=
      (List.dropWhile_sublist _).length_le
    have hlh := countWin_le_length w T h
    by_cases hacc : m ≤ (h.dropWhile fun x => decide (x < t - w)).length
    · have hr : shouldAlertKey m w t h =
          (false, h.dropWhile fun x => decide (x < t - w)) := by
        simp only [shouldAlertKey]
        rw [if_pos hacc]
      rw [hr]
      simp only [Bool.false_eq_true, if_false, List.nil_append]
      by_cases hT : t ≤ T
      · have hceq := countWin_dropWhile_eq w T t h hT
        have ih := dedup_window_invariant m w T ts hsorted _
          (le_trans hclean_le hl)
        omega
      · have hzero : countWin w T
            (acceptedTimes m w (h.dropWhile fun x => decide (x < t - w)) ts) = 0 := by
          rw [countWin, List.countP_eq_zero]
          intro x hx
          have hge : t ≤ x := hts x (acceptedTimes_subset m w ts _ x hx)
          simp only [decide_eq_true_eq, not_and]
          intro _
          omega
        omega
    · have hr : shouldAlertKey m w t h =
          (true, (h.dropWhile fun x => decide (x < t - w)) ++ [t]) := by
        simp only [shouldAlertKey]
        rw [if_neg hacc]
      rw [hr]
      simp only [if_true, List.singleton_append]
      have hlen2 : ((h.dropWhile fun x => decide (x < t - w)) ++ [t]).length ≤ m := by
        rw [List.length_append]
        simp only [List.length_singleton]
        omega
      have ih := dedup_window_invariant m w T ts hsorted _ hlen2
      have happ : countWin w T ((h.dropWhile fun x => decide (x < t - w)) ++ [t]) =
          countWin w T (h.dropWhile fun x => decide (x < t - w)) +
            countWin w T [t] := by
        simp only [countWin]
        rw [List.countP_append]
      have hcons : countWin w T (t :: acceptedTimes m w
            ((h.dropWhile fun x => decide (x < t - w)) ++ [t]) ts) =
          countWin w T [t] + countWin w T (acceptedTimes m w
            ((h.dropWhile fun x => decide (x < t - w)) ++ [t]) ts) := by
        simp only [countWin]
        rw [List.countP_cons]
        have : List.countP (fun x => decide (T - w ≤ x ∧ x ≤ T)) [t] =
            List.countP (fun x => decide (T - w ≤ x ∧ x ≤ T)) [] +
              (if (fun x => decide (T - w ≤ x ∧ x ≤ T)) t = true then 1 else 0) :=
          List.countP_cons _ t []
        simp only [List.countP_nil, Nat.zero_add] at this
        omega
      by_cases hT : t ≤ T
      · have hceq := countWin_dropWhile_eq w T t h hT
        omega
      · have hzero : countWin w T (acceptedTimes m w
            ((h.dropWhile fun x => decide (x < t - w)) ++ [t]) ts) = 0 := by
          rw [countWin, List.countP_eq_zero]
          intro x hx
          have hge : t ≤ x := hts x (acceptedTimes_subset m w ts _ x hx)
          simp only [decide_eq_true_eq, not_and]
          intro _
          omega
        have ht0 : countWin w T [t] = 0 := by
          rw [countWin, List.countP_eq_zero]
          intro x hx
          rw [List.mem_singleton] at hx
          subst hx
          simp only [decide_eq_true_eq, not_and]
          intro _
          omega
        omega

theorem dedupDecisions_all_true (m : Nat) (w : Int) :
    ∀ (ts : List Int) (h : List Int),
      false ∉ dedupDecisions m w h ts → acceptedTimes m w h ts = ts
  | [], _, _ => rfl
  | t :: ts, h, hf => by
    simp only [dedupDecisions, List.mem_cons] at hf
    push_neg at hf
    obtain ⟨h1, h2⟩ := hf
    simp only [acceptedTimes]
    cases hbv : (shouldAlertKey m w t h).1 with
    | false => exact absurd hbv.symm h1
    | true =>
      rw [if_pos rfl]
      simp only [List.singleton_append, List.cons.injEq, true_and]
      exact dedupDecisions_all_true m w ts _ h2

/-- Claim C1 (amended): `should_alert` drops timestamps from the oldest end
of the key's deque while older than the alert's time minus window_minutes —
a maximal prefix, which equals dropping all such timestamps whenever the
recorded history is sorted (in particular whenever alerts arrive in
nondecreasing timestamp order); it then suppresses (recording nothing) when
the remaining count is at least max_occurrences and otherwise records the
alert's timestamp and accepts.  Restricted to alert sequences with
nondecreasing timestamps, at most max_occurrences alerts are accepted per
closed rolling window; in particular more than max_occurrences alerts all
lying within one window cannot all be accepted, so the
(max_occurrences+1)-th is rejected.  For alerts with a parseable timestamp
and an enabled deduplicator, the full `should_alert` reduces to this per-key
computation on the alert's dedup key. -/
theorem C1_dedup_window_bound (m : Nat) (w T t : Int) (h ts : List Int)
    (cfg : DedupCfg) (hist : List (String × List Int)) (a : Alert) :
    (List.Sorted (· ≤ ·) h →
      shouldAlertKey m w t h = shouldAlertKeySpec m w t h) ∧
    (List.Sorted (· ≤ ·) ts →
      countWin w T (acceptedTimes m w [] ts) ≤ m) ∧
    (List.Sorted (· ≤ ·) ts → (∀ x ∈ ts, T - w ≤ x ∧ x ≤ T) →
      m < ts.length → false ∈ dedupDecisions m w [] ts) ∧
    (cfg.enabled = true → a.timestamp = .valid t →
      shouldAlert cfg hist a =
        .ok ((shouldAlertKey cfg.max_occurrences cfg.window_minutes t
                (histGet hist (dedupKey cfg a))).1,
             histSet hist (dedupKey cfg a)
               (shouldAlertKey cfg.max_occurrences cfg.window_minutes t
                 (histGet hist (dedupKey cfg a))).2)) := by
  refine ⟨?_, ?_, ?_, ?_⟩
  · intro hsh
    unfold shouldAlertKey shouldAlertKeySpec
    rw [sorted_dropWhile_eq_filter (t - w) h hsh]
  · intro hsort
    have := dedup_window_invariant m w T ts hsort [] (by simp)
    simpa [countWin] using this
  · intro hsort hall hlen
    by_contra hf
    have heq := dedupDecisions_all_true m w ts [] hf
    have hbound := dedup_window_invariant m w T ts hsort [] (by simp)
    rw [heq] at hbound
    have hfull : countWin w T ts = ts.length :=
      List.countP_eq_length.mpr fun x hx => by simpa using hall x hx
    simp only [countWin, List.countP_nil] at hbound
    rw [countWin] at hfull
    omega
  · intro hen hts
    simp [shouldAlert, hen, hts, fromisoE]

/-- Witness for C1's amended theorem at concrete inputs: per-call equivalence
on the sorted history 0, 5; the window bound for the sorted run 0, 1, 2, 9
(max 2, window 5, window ending at 2); and the claim's rejection scenario on
three alerts 0, 1, 2 inside one window with max 2; and the reduction of the
full `should_alert` on a concrete alert. -/
theorem C1_dedup_window_bound_witness :
    shouldAlertKey 2 5 6 [0, 5] = shouldAlertKeySpec 2 5 6 [0, 5] ∧
    countWin 5 2 (acceptedTimes 2 5 [] [0, 1, 2, 9]) ≤ 2 ∧
    false ∈ dedupDecisions 2 5 [] [0, 1, 2] ∧
    shouldAlert {} [] sampleAlert =
      .ok ((shouldAlertKey 3 5 7 (histGet [] (dedupKey {} sampleAlert))).1,
           histSet [] (dedupKey {} sampleAlert)
             (shouldAlertKey 3 5 7 (histGet [] (dedupKey {} sampleAlert))).2) :=
  have h1 := C1_dedup_window_bound 2 5 2 6 [0, 5] [0, 1, 2, 9] {} [] sampleAlert
  have h2 := C1_dedup_window_bound 2 5 2 6 [0, 5] [0, 1, 2] {} [] sampleAlert
  have h3 := C1_dedup_window_bound 3 5 2 7 [] [] {} [] sampleAlert
  ⟨h1.1 (by decide), h1.2.1 (by decide),
   h2.2.2.1 (by decide) (by decide) (by decide),
   h3.2.2.2 rfl rfl⟩

end AlertPipeline
